import Mathlib

/-!
# Verification of the super-tic-tac-toe engine and its actor layer

This development shallowly embeds the parts of the repository that the
specification talks about:

* the pure game engine (`src/lib/gameEngine.ts` and `src/lib/winDetection.ts`):
  board representation, move legality, win/draw detection and the
  active-sub-board rule;
* the notation codec (`src/utils/chessNotation.ts`);
* the matchmaking actor's queue/pairing logic
  (`worker/src/durable-objects/MatchmakingQueue.ts`);
* the match session actor's restart/reconnect and move-handling logic
  (`worker/src/durable-objects/GameSession.ts`).

JavaScript values are embedded as follows: `null` becomes `none`; numbers that
the code compares against negative bounds become `Int`; timestamps produced by
`Date.now()` are passed in explicitly as a `now` argument; `Map` objects become
association lists with the `mapGet`/`mapSet`/`mapDelete` operations below;
random ids and tokens (`crypto.randomUUID()`) and the success of cross-actor
calls are passed in as explicit arguments.  Effects on connections (WebSocket
sends) are modelled as a returned list of `(recipient, message)` pairs.
-/

namespace SuperTTT

/-- Player symbol, `PlayerSymbol = "X" | "O"` in `types/game.ts`. -/
inductive Player
  | X
  | O
deriving DecidableEq

/-- A cell is a player symbol or `null` (`Cell = PlayerSymbol | null`). -/
abbrev Cell := Option Player

/-- A sub-board: 3x3 grid of cells stored as a flat array of nine cells. -/
abbrev SubBoard := List Cell

/-- The main board: winners of each sub-board (empty while open or drawn). -/
abbrev MainBoard := List Cell

/-- `BOARD_SIZE = 3` from `types/game.ts`. -/
def BOARD_SIZE : Nat := 3

/-- `TOTAL_CELLS = BOARD_SIZE * BOARD_SIZE` from `types/game.ts`. -/
def TOTAL_CELLS : Nat := BOARD_SIZE * BOARD_SIZE

/-- `WINNING_COMBINATIONS` from `types/game.ts`: 3 rows, 3 columns,
2 diagonals. -/
def WINNING_COMBINATIONS : List (Nat × Nat × Nat) :=
  [(0, 1, 2), (3, 4, 5), (6, 7, 8),
   (0, 3, 6), (1, 4, 7), (2, 5, 8),
   (0, 4, 8), (2, 4, 6)]

/-- Complete game board structure (`GameBoard` in `types/game.ts`).
`activeBoard` is an index 0-8 or `null` (= any board). -/
structure GameBoard where
  main : MainBoard
  sub : List SubBoard
  activeBoard : Option Int
deriving DecidableEq

/-- Game status (`GameStatus = "waiting" | "playing" | "finished"`). -/
inductive GameStatus
  | waiting
  | playing
  | finished
deriving DecidableEq

/-- Game winner value (`PlayerSymbol | "draw"`, stored in an `Option` for
the `null` case). -/
inductive GameWinner
  | X
  | O
  | draw
deriving DecidableEq

/-- Conversion of a player symbol into a winner value (implicit in the
TypeScript union types). -/
def GameWinner.ofPlayer : Player → GameWinner
  | Player.X => GameWinner.X
  | Player.O => GameWinner.O

/-- Complete game state (`GameState` in `types/game.ts`). -/
structure GameState where
  gameId : String
  board : GameBoard
  currentPlayer : Player
  status : GameStatus
  winner : Option GameWinner
  createdAt : Nat
  lastMove : Nat
deriving DecidableEq

/-- Move representation (`Move` in `types/game.ts`).  Indices are `Int`
because the engine explicitly checks them against `0`. -/
structure Move where
  boardIndex : Int
  cellIndex : Int
  player : Player
  timestamp : Nat
deriving DecidableEq

/-- Move validation result (`MoveResult` in `types/game.ts`). -/
structure MoveResult where
  valid : Bool
  error : Option String := none
  newGameState : Option GameState := none
deriving DecidableEq

/-- Iteration of `checkSubBoardWinner` / `checkMainBoardWinner` over the
winning combinations: the first triple whose three cells hold the same
non-null symbol wins (`winDetection.ts`). -/
def checkCombos : List (Nat × Nat × Nat) → List Cell → Cell
  | [], _ => none
  | (a, b, c) :: rest, board =>
    match board.getD a none with
    | some p =>
      if board.getD b none = some p ∧ board.getD c none = some p then some p
      else checkCombos rest board
    | none => checkCombos rest board

/-- `checkSubBoardWinner` from `winDetection.ts`. -/
def checkSubBoardWinner (subBoard : SubBoard) : Cell :=
  checkCombos WINNING_COMBINATIONS subBoard

/-- `checkMainBoardWinner` from `winDetection.ts`. -/
def checkMainBoardWinner (mainBoard : MainBoard) : Cell :=
  checkCombos WINNING_COMBINATIONS mainBoard

/-- `isSubBoardFull` from `winDetection.ts`: every cell is non-null. -/
def isSubBoardFull (subBoard : SubBoard) : Bool :=
  subBoard.all (fun cell => cell.isSome)

/-- `isGameDraw` from `winDetection.ts`: all positions of the main board are
filled and there is no winner.  Note that a drawn sub-board leaves its main
cell `null`. -/
def isGameDraw (mainBoard : MainBoard) : Bool :=
  let allPositionsFilled := mainBoard.all (fun cell => cell.isSome)
  let hasWinner := (checkMainBoardWinner mainBoard).isSome
  allPositionsFilled && !hasWinner

/-- `isSubBoardCompleted` from `winDetection.ts`: won or full. -/
def isSubBoardCompleted (subBoard : SubBoard) : Bool :=
  (checkSubBoardWinner subBoard).isSome || isSubBoardFull subBoard

/-- `getValidMoves` from `winDetection.ts`. -/
def getValidMoves (subBoards : List SubBoard) (activeBoard : Option Int) :
    List (Nat × Nat) :=
  match activeBoard with
  | some active =>
    let targetBoard := subBoards.getD active.toNat []
    if isSubBoardCompleted targetBoard then []
    else
      (List.range targetBoard.length).filterMap fun cellIndex =>
        if targetBoard.getD cellIndex none = none then
          some (active.toNat, cellIndex)
        else none
  | none =>
    (List.range subBoards.length).foldr
      (fun boardIndex acc =>
        let subBoard := subBoards.getD boardIndex []
        if isSubBoardCompleted subBoard then acc
        else
          ((List.range subBoard.length).filterMap fun cellIndex =>
            if subBoard.getD cellIndex none = none then
              some (boardIndex, cellIndex)
            else none) ++ acc)
      []

/-- `createNewGame` from `gameEngine.ts`.  `Date.now()` is the `now`
argument. -/
def createNewGame (gameId : String) (now : Nat) : GameState :=
  { gameId := gameId
    board :=
      { main := List.replicate TOTAL_CELLS none
        sub := List.replicate TOTAL_CELLS (List.replicate TOTAL_CELLS none)
        activeBoard := none }
    currentPlayer := Player.X
    status := GameStatus.playing
    winner := none
    createdAt := now
    lastMove := now }

/-- `isValidMove` from `gameEngine.ts`: the chain of early-return checks. -/
def isValidMove (gameState : GameState) (move : Move) : Bool :=
  if gameState.status ≠ GameStatus.playing then false
  else if move.player ≠ gameState.currentPlayer then false
  else if move.boardIndex < 0 ∨ move.boardIndex ≥ (TOTAL_CELLS : Int) ∨
          move.cellIndex < 0 ∨ move.cellIndex ≥ (TOTAL_CELLS : Int) then false
  else if (gameState.board.sub.getD move.boardIndex.toNat []).getD
            move.cellIndex.toNat none ≠ none then false
  else if isSubBoardCompleted
            (gameState.board.sub.getD move.boardIndex.toNat []) then false
  else if gameState.board.activeBoard ≠ none ∧
          gameState.board.activeBoard ≠ some move.boardIndex then false
  else true

/-- `calculateNextActiveBoard` from `gameEngine.ts`: the cell index just
played, unless that sub-board is completed, in which case any board. -/
def calculateNextActiveBoard (cellIndex : Int) (subBoards : List SubBoard) :
    Option Int :=
  let targetBoard := cellIndex
  if isSubBoardCompleted (subBoards.getD targetBoard.toNat []) then none
  else some targetBoard

/-- Deep copy of the game state, `JSON.parse(JSON.stringify(gameState))` in
`applyMove`.  On the embedded (JSON-safe) values the JSON round trip is the
identity; the aliasing consequences are modelled separately by the store
semantics `applyMoveS` below. -/
def deepCopy (gameState : GameState) : GameState := gameState

/-- Successor state built by the success branch of `applyMove` in
`gameEngine.ts`: all mutations the source performs on the deep copy
`newGameState`, accumulated into one record. -/
def applyMoveSuccess (now : Nat) (gameState : GameState) (move : Move) :
    GameState :=
  let s0 := deepCopy gameState
  let bi := move.boardIndex.toNat
  let ci := move.cellIndex.toNat
  let sub1 := s0.board.sub.set bi ((s0.board.sub.getD bi []).set ci (some move.player))
  let subBoardWinner := checkSubBoardWinner (sub1.getD bi [])
  let main1 :=
    match subBoardWinner with
    | some w => s0.board.main.set bi (some w)
    | none => s0.board.main
  let activeBoard1 := calculateNextActiveBoard move.cellIndex sub1
  let mainBoardWinner := checkMainBoardWinner main1
  let winner1 :=
    match mainBoardWinner with
    | some w => some (GameWinner.ofPlayer w)
    | none => if isGameDraw main1 then some GameWinner.draw else s0.winner
  let status1 :=
    match mainBoardWinner with
    | some _ => GameStatus.finished
    | none => if isGameDraw main1 then GameStatus.finished else s0.status
  let currentPlayer1 :=
    if status1 = GameStatus.playing then
      (if move.player = Player.X then Player.O else Player.X)
    else s0.currentPlayer
  { s0 with
    board := { main := main1, sub := sub1, activeBoard := activeBoard1 }
    lastMove := now
    winner := winner1
    status := status1
    currentPlayer := currentPlayer1 }

/-- `applyMove` from `gameEngine.ts`: fails with the generic "Invalid move"
error when `isValidMove` fails, otherwise returns the successor state. -/
def applyMove (now : Nat) (gameState : GameState) (move : Move) : MoveResult :=
  if ¬ isValidMove gameState move then
    { valid := false, error := some "Invalid move" }
  else
    { valid := true
      newGameState := some (applyMoveSuccess now gameState move) }

/-- `createMove` from `gameEngine.ts`. -/
def createMove (boardIndex cellIndex : Int) (player : Player) (now : Nat) :
    Move :=
  { boardIndex := boardIndex, cellIndex := cellIndex, player := player,
    timestamp := now }

/-- `getValidMovesForGame` from `gameEngine.ts`. -/
def getValidMovesForGame (gameState : GameState) : List (Nat × Nat) :=
  if gameState.status ≠ GameStatus.playing then []
  else getValidMoves gameState.board.sub gameState.board.activeBoard

/-- Characterization of `isValidMove` as the conjunction of the six
legality conditions; shared by several claims below. -/
lemma isValidMove_spec (s : GameState) (m : Move) :
    isValidMove s m = true ↔
      s.status = GameStatus.playing ∧
      m.player = s.currentPlayer ∧
      0 ≤ m.boardIndex ∧ m.boardIndex < (TOTAL_CELLS : Int) ∧
      0 ≤ m.cellIndex ∧ m.cellIndex < (TOTAL_CELLS : Int) ∧
      (s.board.sub.getD m.boardIndex.toNat []).getD m.cellIndex.toNat none
        = none ∧
      isSubBoardCompleted (s.board.sub.getD m.boardIndex.toNat []) = false ∧
      (s.board.activeBoard = none ∨ s.board.activeBoard = some m.boardIndex) := by
  unfold isValidMove
  split_ifs with h1 h2 h3 h4 h5 h6
  · simp only [Bool.false_eq_true, false_iff]
    intro h
    exact h1 h.1
  · simp only [Bool.false_eq_true, false_iff]
    intro h
    exact h2 h.2.1
  · simp only [Bool.false_eq_true, false_iff]
    intro h
    obtain ⟨-, -, hb0, hb1, hc0, hc1, -⟩ := h
    rcases h3 with h3 | h3 | h3 | h3 <;> omega
  · simp only [Bool.false_eq_true, false_iff]
    intro h
    exact h4 h.2.2.2.2.2.2.1
  · simp only [Bool.false_eq_true, false_iff]
    intro h
    rw [h.2.2.2.2.2.2.2.1] at h5
    simp at h5
  · simp only [Bool.false_eq_true, false_iff]
    intro h
    rcases h.2.2.2.2.2.2.2.2 with ha | ha
    · exact h6.1 ha
    · exact h6.2 ha
  · simp only [true_iff]
    push_neg at h1 h2 h3 h6
    refine ⟨h1, h2, h3.1, h3.2.1, h3.2.2.1, h3.2.2.2, ?_, ?_, ?_⟩
    · by_contra hc
      exact h4 hc
    · exact Bool.eq_false_iff.mpr h5
    · by_cases hn : s.board.activeBoard = none
      · exact Or.inl hn
      · exact Or.inr (h6 hn)

/-- C1: `isValidMove(s, m)` returns true iff the game is playing, the mover
matches `currentPlayer`, both indices are in `[0, 8]`, the target micro-cell
is empty, the target sub-board is not completed, and `activeBoard` is `null`
or equals `boardIndex`. -/
theorem isValidMove_correct (s : GameState) (m : Move) :
    isValidMove s m = true ↔
      s.status = GameStatus.playing ∧
      m.player = s.currentPlayer ∧
      0 ≤ m.boardIndex ∧ m.boardIndex < (TOTAL_CELLS : Int) ∧
      0 ≤ m.cellIndex ∧ m.cellIndex < (TOTAL_CELLS : Int) ∧
      (s.board.sub.getD m.boardIndex.toNat []).getD m.cellIndex.toNat none
        = none ∧
      isSubBoardCompleted (s.board.sub.getD m.boardIndex.toNat []) = false ∧
      (s.board.activeBoard = none ∨ s.board.activeBoard = some m.boardIndex) :=
  isValidMove_spec s m

/-- Inversion for a successful `applyMove`: the move was legal and the new
state is the one built by the success branch. -/
lemma applyMove_success_inv {now : Nat} {s : GameState} {m : Move}
    {ns : GameState} (h : (applyMove now s m).newGameState = some ns) :
    isValidMove s m = true ∧ ns = applyMoveSuccess now s m := by
  by_cases hv : isValidMove s m = true
  · unfold applyMove at h
    rw [if_neg (not_not_intro hv)] at h
    exact ⟨hv, (Option.some.injEq _ _ ▸ h).symm⟩
  · unfold applyMove at h
    rw [if_pos hv] at h
    simp at h

/-- Sub-boards of the successor state: the played cell is written into its
sub-board, nothing else changes. -/
lemma applyMoveSuccess_sub (now : Nat) (s : GameState) (m : Move) :
    (applyMoveSuccess now s m).board.sub =
      s.board.sub.set m.boardIndex.toNat
        ((s.board.sub.getD m.boardIndex.toNat []).set m.cellIndex.toNat
          (some m.player)) := rfl

/-- Active board of the successor state is computed by
`calculateNextActiveBoard` from the cell index just played and the post-move
sub-boards. -/
lemma applyMoveSuccess_activeBoard (now : Nat) (s : GameState) (m : Move) :
    (applyMoveSuccess now s m).board.activeBoard =
      calculateNextActiveBoard m.cellIndex
        (applyMoveSuccess now s m).board.sub := rfl

/-- C2: after a legal move at cell index `c`, the successor's `activeBoard`
is `c` whenever sub-board `c` is not completed after the move, and `null`
("any") whenever sub-board `c` is completed (won or full) after the move —
including the edge case where the move itself completes sub-board `c`. -/
theorem applyMove_next_active_board (now : Nat) (s : GameState) (m : Move)
    (ns : GameState) (h : (applyMove now s m).newGameState = some ns) :
    (isSubBoardCompleted (ns.board.sub.getD m.cellIndex.toNat []) = true →
       ns.board.activeBoard = none) ∧
    (isSubBoardCompleted (ns.board.sub.getD m.cellIndex.toNat []) = false →
       ns.board.activeBoard = some m.cellIndex) := by
  obtain ⟨-, hns⟩ := applyMove_success_inv h
  subst hns
  rw [applyMoveSuccess_activeBoard]
  unfold calculateNextActiveBoard
  constructor <;> intro hcomp
  · rw [if_pos hcomp]
  · rw [if_neg]
    rw [hcomp]
    simp

/-- Witness for C2 at a concrete input: from a fresh game, X plays board 4
cell 4; sub-board 4 is not completed afterwards, so `activeBoard` is 4. -/
theorem applyMove_next_active_board_witness :
    ((applyMove 0 (createNewGame "g" 0)
        { boardIndex := 4, cellIndex := 4, player := Player.X, timestamp := 0
        }).newGameState.getD (createNewGame "g" 0)).board.activeBoard
      = some 4 :=
  (applyMove_next_active_board 0 (createNewGame "g" 0)
    { boardIndex := 4, cellIndex := 4, player := Player.X, timestamp := 0 }
    _ (by decide)).2 (by decide)

/-- Shape invariant of a board: nine main cells, nine sub-boards of nine
cells each.  `createNewGame` establishes it and `applyMove` preserves it. -/
def WellFormedBoard (b : GameBoard) : Prop :=
  b.main.length = TOTAL_CELLS ∧ b.sub.length = TOTAL_CELLS ∧
    ∀ sb ∈ b.sub, sb.length = TOTAL_CELLS

instance (b : GameBoard) : Decidable (WellFormedBoard b) := by
  unfold WellFormedBoard
  infer_instance

/-- Length of the main board is unchanged by a move. -/
lemma applyMoveSuccess_main_length (now : Nat) (s : GameState) (m : Move) :
    (applyMoveSuccess now s m).board.main.length = s.board.main.length := by
  unfold applyMoveSuccess deepCopy
  dsimp only
  split <;> simp

/-- C10: `createNewGame` starts with `activeBoard = null`, and after every
successful `applyMove` the `activeBoard` is `null` or the index of a
sub-board that is not completed; consequently in a playing successor state
with a non-null `activeBoard` the constrained player has a legal move in
the constrained sub-board. -/
theorem active_board_invariant :
    (∀ gid now, (createNewGame gid now).board.activeBoard = none ∧
        WellFormedBoard (createNewGame gid now).board) ∧
    (∀ (now : Nat) (s : GameState) (m : Move) (ns : GameState),
      WellFormedBoard s.board →
      (applyMove now s m).newGameState = some ns →
      WellFormedBoard ns.board ∧
      (ns.board.activeBoard = none ∨
        ∃ b : Int, ns.board.activeBoard = some b ∧ 0 ≤ b ∧
          b < (TOTAL_CELLS : Int) ∧
          isSubBoardCompleted (ns.board.sub.getD b.toNat []) = false) ∧
      (∀ b : Int, ns.status = GameStatus.playing →
        ns.board.activeBoard = some b →
        ∃ c : Int, isValidMove ns
          { boardIndex := b, cellIndex := c, player := ns.currentPlayer,
            timestamp := now } = true)) := by
  constructor
  · intro gid now
    refine ⟨rfl, ?_, ?_, ?_⟩
    · simp [createNewGame]
    · simp [createNewGame]
    · intro sb hsb
      rw [createNewGame] at hsb
      simp only [List.eq_of_mem_replicate hsb]
      simp
  · intro now s m ns hwf h
    obtain ⟨hv, hns⟩ := applyMove_success_inv h
    subst hns
    obtain ⟨hstat, hcur, hb0, hb1, hc0, hc1, hcell, hncomp, hact⟩ :=
      (isValidMove_spec s m).mp hv
    have hbi : m.boardIndex.toNat < s.board.sub.length := by
      rw [hwf.2.1]; unfold TOTAL_CELLS BOARD_SIZE at hb1 ⊢; omega
    have hwf' : WellFormedBoard (applyMoveSuccess now s m).board := by
      refine ⟨?_, ?_, ?_⟩
      · rw [applyMoveSuccess_main_length]; exact hwf.1
      · rw [applyMoveSuccess_sub, List.length_set]; exact hwf.2.1
      · intro sb hsb
        rw [applyMoveSuccess_sub] at hsb
        rcases List.mem_or_eq_of_mem_set hsb with h' | h'
        · exact hwf.2.2 sb h'
        · subst h'
          rw [List.length_set, List.getD_eq_getElem _ _ hbi]
          exact hwf.2.2 _ (List.getElem_mem hbi)
    have hdisj : (applyMoveSuccess now s m).board.activeBoard = none ∨
        ∃ b : Int, (applyMoveSuccess now s m).board.activeBoard = some b ∧
          0 ≤ b ∧ b < (TOTAL_CELLS : Int) ∧
          isSubBoardCompleted
            ((applyMoveSuccess now s m).board.sub.getD b.toNat []) = false := by
      rw [applyMoveSuccess_activeBoard]
      unfold calculateNextActiveBoard
      dsimp only
      split_ifs with hcomp
      · exact Or.inl rfl
      · exact Or.inr ⟨m.cellIndex, rfl, hc0, hc1, Bool.eq_false_iff.mpr hcomp⟩
    refine ⟨hwf', hdisj, ?_⟩
    intro b hplay hab
    rcases hdisj with hnone | ⟨b', hb', hb'0, hb'1, hb'ncomp⟩
    · rw [hnone] at hab; exact absurd hab (by simp)
    · have hbb : b = b' := Option.some.inj (hab.symm.trans hb')
      subst hbb
      have hblen : b.toNat < (applyMoveSuccess now s m).board.sub.length := by
        rw [hwf'.2.1]; unfold TOTAL_CELLS BOARD_SIZE at hb'1 ⊢; omega
      have hsblen :
          ((applyMoveSuccess now s m).board.sub.getD b.toNat []).length
            = TOTAL_CELLS := by
        rw [List.getD_eq_getElem _ _ hblen]
        exact hwf'.2.2 _ (List.getElem_mem hblen)
      have hnotfull :
          isSubBoardFull
            ((applyMoveSuccess now s m).board.sub.getD b.toNat []) = false := by
        unfold isSubBoardCompleted at hb'ncomp
        exact (Bool.or_eq_false_iff.mp hb'ncomp).2
      have hex : ∃ x ∈ (applyMoveSuccess now s m).board.sub.getD b.toNat [],
          x = none := by
        unfold isSubBoardFull at hnotfull
        by_contra hc
        push_neg at hc
        have : ((applyMoveSuccess now s m).board.sub.getD b.toNat []).all
            (fun cell => cell.isSome) = true := by
          rw [List.all_eq_true]
          intro x hx
          cases hx' : x with
          | none => exact absurd hx' (hc x hx)
          | some p => rfl
        rw [this] at hnotfull
        exact absurd hnotfull (by simp)
      obtain ⟨x, hxmem, hxnone⟩ := hex
      obtain ⟨i, hi, hieq⟩ := List.mem_iff_getElem.mp hxmem
      refine ⟨(i : Int), (isValidMove_spec _ _).mpr ?_⟩
      have hi9 : i < TOTAL_CELLS := hsblen ▸ hi
      have hiInt : ((i : Int)).toNat = i := rfl
      refine ⟨hplay, rfl, hb'0, hb'1, ?_, ?_, ?_, hb'ncomp, Or.inr hab⟩
      · show (0 : Int) ≤ (i : Int)
        omega
      · show ((i : Int)) < ((TOTAL_CELLS : Nat) : Int)
        unfold TOTAL_CELLS BOARD_SIZE at hi9 ⊢
        omega
      · show ((applyMoveSuccess now s m).board.sub.getD b.toNat []).getD
          ((i : Int)).toNat none = none
        rw [hiInt, List.getD_eq_getElem _ _ hi, hieq]
        exact hxnone

/-- Witness for C10 at a concrete input: from the fresh game the move at
board 4, cell 4 leads to a state with `activeBoard = 4` in which the
constrained player has a legal move in sub-board 4. -/
theorem active_board_invariant_witness :
    ∃ c : Int, isValidMove
      ((applyMove 0 (createNewGame "g" 0)
          { boardIndex := 4, cellIndex := 4, player := Player.X,
            timestamp := 0 }).newGameState.getD (createNewGame "g" 0))
      { boardIndex := 4, cellIndex := c,
        player := ((applyMove 0 (createNewGame "g" 0)
          { boardIndex := 4, cellIndex := 4, player := Player.X,
            timestamp := 0 }).newGameState.getD
              (createNewGame "g" 0)).currentPlayer,
        timestamp := 0 } = true :=
  (active_board_invariant.2 0 (createNewGame "g" 0)
    { boardIndex := 4, cellIndex := 4, player := Player.X, timestamp := 0 }
    _ (by decide) (by decide)).2.2 4 (by decide) (by decide)

/-- Folding a list of moves through `applyMove`, starting from a given
state; `none` as soon as a move is rejected. -/
def playMoves (now : Nat) : GameState → List (Int × Int × Player) →
    Option GameState
  | s, [] => some s
  | s, (bi, ci, p) :: rest =>
    match (applyMove now s
        { boardIndex := bi, cellIndex := ci, player := p,
          timestamp := now }).newGameState with
    | some s2 => playMoves now s2 rest
    | none => none

/-- A complete legal game (63 moves from the empty board, each accepted by
`applyMove`) after which every sub-board is completed, sub-boards 2 and 4
are drawn (full with no line, main cell left `null`), and the macro board
`[O, O, null, O, null, X, X, X, O]` has no winning triple. -/
def stuckMoves : List (Int × Int × Player) :=
  [(7, 6, Player.X), (6, 7, Player.O), (7, 1, Player.X), (1, 1, Player.O),
   (1, 6, Player.X), (6, 8, Player.O), (8, 1, Player.X), (1, 3, Player.O),
   (3, 8, Player.X), (8, 5, Player.O), (5, 1, Player.X), (1, 7, Player.O),
   (7, 3, Player.X), (3, 3, Player.O), (3, 7, Player.X), (7, 7, Player.O),
   (7, 8, Player.X), (8, 6, Player.O), (6, 2, Player.X), (2, 7, Player.O),
   (7, 0, Player.X), (0, 6, Player.O), (6, 3, Player.X), (3, 5, Player.O),
   (5, 4, Player.X), (4, 4, Player.O), (4, 2, Player.X), (2, 3, Player.O),
   (3, 1, Player.X), (1, 0, Player.O), (0, 4, Player.X), (4, 5, Player.O),
   (5, 0, Player.X), (0, 0, Player.O), (0, 8, Player.X), (8, 2, Player.O),
   (2, 1, Player.X), (1, 2, Player.O), (2, 0, Player.X), (0, 7, Player.O),
   (6, 0, Player.X), (0, 3, Player.O), (3, 2, Player.X), (2, 4, Player.O),
   (4, 8, Player.X), (8, 8, Player.O), (5, 3, Player.X), (3, 6, Player.O),
   (6, 5, Player.X), (5, 7, Player.O), (6, 1, Player.X), (5, 5, Player.O),
   (5, 8, Player.X), (4, 0, Player.O), (2, 5, Player.X), (4, 1, Player.O),
   (2, 6, Player.X), (3, 4, Player.O), (4, 7, Player.X), (4, 6, Player.O),
   (2, 8, Player.X), (2, 2, Player.O), (4, 3, Player.X)]

/-- C3: evaluation of the engine on the game `stuckMoves`, whose last move
completes the last open sub-board while sub-boards 2 and 4 are drawn.  All
63 moves are accepted; in the resulting state every sub-board is completed
and the macro board has no winning triple, yet the state is NOT a finished
draw: `status` is still `playing`, `winner` is still `null`, `isGameDraw`
is false (the drawn sub-boards keep their main cells `null`), and there is
no valid move left — the game can never end.  This contradicts the
specified behaviour (finished, winner "draw") and `isGameDraw`'s own
documentation ("all sub-boards are completed but no winner"). -/
theorem stuck_game_not_draw :
    (playMoves 0 (createNewGame "g" 0) stuckMoves).map (fun s =>
        s.board.sub.all isSubBoardCompleted &&
        (checkMainBoardWinner s.board.main == none) &&
        (s.board.main.getD 4 none == none) &&
        (isGameDraw s.board.main == false) &&
        (s.status == GameStatus.playing) &&
        (s.winner == none) &&
        (getValidMovesForGame s).isEmpty)
      = some true := by
  decide

/-- Board position tokens, `BOARD_NOTATION` in `chessNotation.ts` (renamed:
the original identifier is not usable here).  Strings are embedded as
character lists. -/
def BOARD_CODES : List (Nat × List Char) :=
  [(0, ['U', 'L']), (1, ['U']), (2, ['U', 'R']),
   (3, ['L']), (4, ['M']), (5, ['R']),
   (6, ['L', 'L']), (7, ['L', 'o']), (8, ['L', 'R'])]

/-- Cell position tokens, `CELL_NOTATION` in `chessNotation.ts` (renamed
like `BOARD_CODES`). -/
def CELL_CODES : List (Nat × List Char) :=
  [(0, ['u', 'l']), (1, ['u']), (2, ['u', 'r']),
   (3, ['l']), (4, ['m']), (5, ['r']),
   (6, ['l', 'l']), (7, ['l', 'o']), (8, ['l', 'r'])]

/-- Token lookup `TABLE[index]`.  Indices outside the table (never produced
by the game engine and outside every claim) yield the empty token. -/
def codeFor (table : List (Nat × List Char)) (index : Int) : List Char :=
  (table.lookup index.toNat).getD []

/-- `moveToChessNotation` from `chessNotation.ts` (renamed): board token
followed by cell token. -/
def moveToChessCode (move : Move) : List Char :=
  codeFor BOARD_CODES move.boardIndex ++ codeFor CELL_CODES move.cellIndex

/-- Reverse token lookup,
`Object.entries(TABLE).find(([, value]) => value === part)`. -/
def keyOfCode : List (Nat × List Char) → List Char → Option Nat
  | [], _ => none
  | (k, v) :: rest, code => if v = code then some k else keyOfCode rest code

/-- `chessNotationToMove` from `chessNotation.ts`: try every split point
`i` from 1 to `length - 1` and return the first split whose prefix is a
board token and whose suffix is a cell token. -/
def chessNotationToMove (code : List Char) : Option (Nat × Nat) :=
  (List.range' 1 (code.length - 1)).findSome? fun i =>
    match keyOfCode BOARD_CODES (code.take i),
          keyOfCode CELL_CODES (code.drop i) with
    | some boardIndex, some cellIndex => some (boardIndex, cellIndex)
    | _, _ => none

/-- C9: for all 81 valid pairs, decoding the encoded two-token code returns
the original `(boardIndex, cellIndex)` pair. -/
theorem codec_round_trip (b c : Nat) (hb : b < 9) (hc : c < 9) (p : Player)
    (t : Nat) :
    chessNotationToMove (moveToChessCode
        { boardIndex := (b : Int), cellIndex := (c : Int), player := p,
          timestamp := t })
      = some (b, c) := by
  have key : ∀ bf : Fin 9, ∀ cf : Fin 9,
      chessNotationToMove
          (codeFor BOARD_CODES ((bf.val : Int)) ++
           codeFor CELL_CODES ((cf.val : Int)))
        = some (bf.val, cf.val) := by decide
  simpa [moveToChessCode] using key ⟨b, hb⟩ ⟨c, hc⟩

/-- Witness for C9 at a concrete input: board 7 ("Lo"), cell 6 ("ll") —
"Lollo"-style adjacent tokens decode back to (7, 6). -/
theorem codec_round_trip_witness :
    chessNotationToMove (moveToChessCode
        { boardIndex := (7 : Int), cellIndex := (6 : Int), player := Player.X,
          timestamp := 0 })
      = some (7, 6) :=
  codec_round_trip 7 6 (by decide) (by decide) Player.X 0

/-- Result of the store-level `applyMove`: like `MoveResult` but the new
game state is a reference into the store. -/
structure MoveResultS where
  valid : Bool
  error : Option String := none
  newGameState : Option Nat := none
deriving DecidableEq

/-- Object store modelling the JavaScript heap at the granularity of
`GameState` objects: a reference is an index into the store. -/
structure Store where
  objs : List GameState
deriving DecidableEq

/-- Store-level `applyMove`: reads the caller's state through its
reference; the deep copy `JSON.parse(JSON.stringify(gameState))` shares no
object with the input, so the success branch allocates the successor state
at a fresh reference and writes only there; the failure branch touches
nothing. -/
def applyMoveS (now : Nat) (st : Store) (r : Nat) (move : Move) :
    Store × MoveResultS :=
  match st.objs[r]? with
  | none => (st, { valid := false, error := some "Invalid move" })
  | some gameState =>
    let res := applyMove now gameState move
    match res.newGameState with
    | none => (st, { valid := res.valid, error := res.error })
    | some ns =>
      ({ objs := st.objs ++ [ns] },
       { valid := res.valid, error := res.error,
         newGameState := some st.objs.length })

/-- C8: `applyMove` never mutates the caller's state: the value at the
input reference is unchanged in all cases, the successor state (when any)
lives at a distinct fresh reference, and an illegal move leaves the store
untouched and is answered with the constant generic error "Invalid move"
that does not depend on which legality condition failed. -/
theorem applyMove_no_input_mutation (now : Nat) (st : Store) (r : Nat)
    (m : Move) (v : GameState) (h : st.objs[r]? = some v) :
    ((applyMoveS now st r m).1.objs[r]? = some v) ∧
    (∀ r2, (applyMoveS now st r m).2.newGameState = some r2 → r2 ≠ r) ∧
    (isValidMove v m = false →
      applyMoveS now st r m =
        (st, { valid := false, error := some "Invalid move",
               newGameState := none })) := by
  have hr : r < st.objs.length := by
    by_contra hc
    push_neg at hc
    rw [List.getElem?_eq_none hc] at h
    exact absurd h (by simp)
  unfold applyMoveS
  rw [h]
  dsimp only
  by_cases hv : isValidMove v m = true
  · have hsucc : applyMove now v m =
        { valid := true, error := none,
          newGameState := some (applyMoveSuccess now v m) } := by
      unfold applyMove
      rw [if_neg (not_not_intro hv)]
    rw [hsucc]
    dsimp only
    refine ⟨?_, ?_, ?_⟩
    · rw [List.getElem?_append_left hr]
      exact h
    · intro r2 h2
      have : r2 = st.objs.length := Option.some.inj h2.symm
      omega
    · intro hfalse
      rw [hv] at hfalse
      exact absurd hfalse (by simp)
  · have h1 : applyMove now v m =
        { valid := false, error := some "Invalid move",
          newGameState := none } := by
      unfold applyMove
      rw [if_pos hv]
    rw [h1]
    dsimp only
    exact ⟨h, by intro r2 h2; exact absurd h2 (by simp), fun _ => rfl⟩

/-- Witness for C8 at a concrete input: a store holding one fresh game and
an illegal move (O tries to move first) — the store is unchanged and the
generic error is returned. -/
theorem applyMove_no_input_mutation_witness :
    applyMoveS 0 { objs := [createNewGame "g" 0] } 0
        { boardIndex := 0, cellIndex := 0, player := Player.O,
          timestamp := 0 } =
      ({ objs := [createNewGame "g" 0] },
       { valid := false, error := some "Invalid move",
         newGameState := none }) :=
  (applyMove_no_input_mutation 0 { objs := [createNewGame "g" 0] } 0
    { boardIndex := 0, cellIndex := 0, player := Player.O, timestamp := 0 }
    (createNewGame "g" 0) (by decide)).2.2 (by decide)

/-- Lookup in an association list, modelling JavaScript `Map.get` (keys are
unique while in a `Map`). -/
def mapGet {α : Type} : List (String × α) → String → Option α
  | [], _ => none
  | (k, v) :: rest, key => if k = key then some v else mapGet rest key

/-- Update/insert, modelling `Map.set`: replaces the entry in place if the
key is present, otherwise appends. -/
def mapSet {α : Type} : List (String × α) → String → α → List (String × α)
  | [], key, value => [(key, value)]
  | (k, v) :: rest, key, value =>
    if k = key then (key, value) :: rest else (k, v) :: mapSet rest key value

/-- Removal, modelling `Map.delete`. -/
def mapDelete {α : Type} : List (String × α) → String → List (String × α)
  | [], _ => []
  | (k, v) :: rest, key => if k = key then rest else (k, v) :: mapDelete rest key

lemma mapGet_mapSet_self {α : Type} (m : List (String × α)) (k : String)
    (v : α) : mapGet (mapSet m k v) k = some v := by
  induction m with
  | nil => simp [mapSet, mapGet]
  | cons hd tl ih =>
    obtain ⟨k', v'⟩ := hd
    by_cases hk : k' = k
    · subst hk
      simp [mapSet, mapGet]
    · simp only [mapSet, if_neg hk, mapGet]
      exact ih

lemma mapGet_mapSet_ne {α : Type} (m : List (String × α)) (k k' : String)
    (v : α) (h : k' ≠ k) : mapGet (mapSet m k v) k' = mapGet m k' := by
  induction m with
  | nil =>
    simp only [mapSet, mapGet]
    rw [if_neg (fun hc : k = k' => h hc.symm)]
  | cons hd tl ih =>
    obtain ⟨k0, v0⟩ := hd
    by_cases hk : k0 = k
    · subst hk
      simp only [mapSet, if_pos rfl, mapGet]
      rw [if_neg (fun hc : k0 = k' => h hc.symm),
          if_neg (fun hc : k0 = k' => h hc.symm)]
    · simp only [mapSet, if_neg hk, mapGet]
      by_cases hk' : k0 = k'
      · rw [if_pos hk', if_pos hk']
      · rw [if_neg hk', if_neg hk']
        exact ih

/-- `QueueEntry` from `types/messages.ts`, as used by the matchmaking
actor. -/
structure QueueEntry where
  playerId : String
  joinedAt : Nat
  nickname : Option String
deriving DecidableEq

/-- A `matchedPlayers` entry of `MatchmakingQueue.ts` (the MatchRecord):
game id, assigned symbol, one-time token and pairing timestamp. -/
structure MatchInfo where
  gameId : String
  symbol : Player
  token : String
  matchedAt : Nat
deriving DecidableEq

/-- Mutable state of the matchmaking actor that the pairing logic touches:
the FIFO `queue` and the `matchedPlayers` map.  (The rate-limit map and
alarm bookkeeping are independent of the pairing claims.) -/
structure MMState where
  queue : List QueueEntry
  matchedPlayers : List (String × MatchInfo)
deriving DecidableEq

/-- Successful result of `tryMatch` for the requesting player. -/
structure TryMatchOk where
  gameId : String
  yourSymbol : Player
  connectToken : String
deriving DecidableEq

/-- `tryMatch` from `MatchmakingQueue.ts`.  The generated game id and the
two per-player tokens (`crypto.randomUUID()`) are passed in, as is the
outcome `initOk` of the `createGameSession` call; `Except.error` models the
re-thrown initialization error.  With fewer than two queued players nothing
happens; otherwise the two oldest entries are dequeued, the first dequeued
is assigned X; on failure the source runs `this.queue.unshift(player2,
player1)`, which puts `player2` in front of `player1`. -/
def tryMatch (st : MMState) (requestingPlayerId : String)
    (gameId tokenPlayer1 tokenPlayer2 : String) (initOk : Bool) (now : Nat) :
    MMState × Except Unit (Option TryMatchOk) :=
  match st.queue with
  | player1 :: player2 :: rest =>
    if initOk then
      let mp1 := mapSet st.matchedPlayers player1.playerId
        { gameId := gameId, symbol := Player.X, token := tokenPlayer1,
          matchedAt := now }
      let mp2 := mapSet mp1 player2.playerId
        { gameId := gameId, symbol := Player.O, token := tokenPlayer2,
          matchedAt := now }
      let requestingPlayerSymbol :=
        if requestingPlayerId = player1.playerId then Player.X else Player.O
      let connectToken :=
        if requestingPlayerId = player1.playerId then tokenPlayer1
        else tokenPlayer2
      ({ queue := rest, matchedPlayers := mp2 },
       Except.ok (some { gameId := gameId,
                         yourSymbol := requestingPlayerSymbol,
                         connectToken := connectToken }))
    else
      ({ queue := player2 :: player1 :: rest,
         matchedPlayers := st.matchedPlayers },
       Except.error ())
  | _ => (st, Except.ok none)

/-- Responses of the `/join` endpoint (after payload validation). -/
inductive JoinResponse
  | matched (gameId : String) (yourSymbol : Player) (connectToken : String)
  | notMatched (position : Int) (estimatedWaitTime : Int)
      (playersInQueue : Nat)
  | requestError
deriving DecidableEq

/-- `calculateWaitTime` from `MatchmakingQueue.ts`. -/
def calculateWaitTime (position : Int) : Int := max 0 (position * 10)

/-- Core of `handleJoinQueue` from `MatchmakingQueue.ts`, after body-size,
nickname and playerId validation: consume an existing MatchRecord first;
otherwise report the queue position if already enqueued; otherwise enqueue
at the tail and attempt a match.  A `tryMatch` error propagates out of the
`try` block and is answered as a generic 400 (`requestError`); note the
queue/map mutations made before the throw persist. -/
def handleJoinQueue (st : MMState) (playerId : String)
    (nickname : Option String) (now : Nat)
    (gameId tokenPlayer1 tokenPlayer2 : String) (initOk : Bool) :
    MMState × JoinResponse :=
  match mapGet st.matchedPlayers playerId with
  | some matchInfo =>
    ({ st with matchedPlayers := mapDelete st.matchedPlayers playerId },
     JoinResponse.matched matchInfo.gameId matchInfo.symbol matchInfo.token)
  | none =>
    match st.queue.findIdx? (fun entry => entry.playerId == playerId) with
    | some existingIndex =>
      (st, JoinResponse.notMatched ((existingIndex : Int) + 1)
        (calculateWaitTime (existingIndex : Int)) st.queue.length)
    | none =>
      let queueEntry : QueueEntry :=
        { playerId := playerId, joinedAt := now, nickname := nickname }
      let st1 : MMState := { st with queue := st.queue ++ [queueEntry] }
      match tryMatch st1 playerId gameId tokenPlayer1 tokenPlayer2 initOk now
        with
      | (st2, Except.ok (some matchResult)) =>
        (st2, JoinResponse.matched matchResult.gameId
          matchResult.yourSymbol matchResult.connectToken)
      | (st2, Except.ok none) =>
        let position : Int :=
          match st2.queue.findIdx? (fun entry => entry.playerId == playerId)
            with
          | some idx => (idx : Int) + 1
          | none => 0
        (st2, JoinResponse.notMatched position
          (calculateWaitTime (position - 1)) st2.queue.length)
      | (st2, Except.error _) => (st2, JoinResponse.requestError)

/-- One `/join` call in the two-player scenario: no nickname, time 0,
session initialization succeeds. -/
def joinStep (st : MMState) (playerId gameId tok1 tok2 : String) :
    MMState × JoinResponse :=
  handleJoinQueue st playerId none 0 gameId tok1 tok2 true

/-- Empty matchmaking state. -/
def mmS0 : MMState := { queue := [], matchedPlayers := [] }

/-- State after P1's first join (P1 queued). -/
def mmS1 : MMState := (joinStep mmS0 "p1" "g" "t1" "t2").1

/-- State after P2's join (paired; both MatchRecords stored). -/
def mmS2 : MMState := (joinStep mmS1 "p2" "g" "t1" "t2").1

/-- State after P1's poll (P1's record consumed). -/
def mmS3 : MMState := (joinStep mmS2 "p1" "gB" "u1" "u2").1

/-- State after P1's further join (re-enqueued, unmatched). -/
def mmS4 : MMState := (joinStep mmS3 "p1" "gC" "v1" "v2").1

/-- State after P2's second join (P2's record consumed only now). -/
def mmS5 : MMState := (joinStep mmS4 "p2" "gD" "w1" "w2").1

/-- C4 counterexample: P1 then P2 join an empty queue; P2's pairing join
returns matched (P2 has observed their match result) and P1's poll returns
matched too, yet P2's second join call returns matched again — not "not
matched" as claimed — because the pairing call stores a MatchRecord for P2
without consuming it. -/
theorem second_join_after_match_still_matched :
    (joinStep mmS1 "p2" "g" "t1" "t2").2
        = JoinResponse.matched "g" Player.O "t2" ∧
    (joinStep mmS2 "p1" "gB" "u1" "u2").2
        = JoinResponse.matched "g" Player.X "t1" ∧
    (joinStep mmS3 "p2" "gC" "v1" "v2").2
        = JoinResponse.matched "g" Player.O "t2" := by
  decide

/-- C4 as amended: P2's pairing join returns matched with P1 = X and
P2 = O; P1's subsequent poll returns matched with the same game id and the
complementary symbol, consuming P1's record, so P1's next join returns
not-matched (re-enqueueing P1); P2's record is NOT consumed by the pairing
call, so P2's next join returns matched with the same game id and symbol
again, and only after that consumption does a P2 join stop finding it
(here it produces a fresh pairing with the waiting P1 under a new game
id). -/
theorem matchmaking_match_record_flow :
    (joinStep mmS0 "p1" "g" "t1" "t2").2 = JoinResponse.notMatched 1 0 1 ∧
    (joinStep mmS1 "p2" "g" "t1" "t2").2
        = JoinResponse.matched "g" Player.O "t2" ∧
    (joinStep mmS2 "p1" "gB" "u1" "u2").2
        = JoinResponse.matched "g" Player.X "t1" ∧
    (joinStep mmS3 "p1" "gC" "v1" "v2").2
        = JoinResponse.notMatched 1 0 1 ∧
    (joinStep mmS4 "p2" "gD" "w1" "w2").2
        = JoinResponse.matched "g" Player.O "t2" ∧
    (joinStep mmS5 "p2" "gE" "y1" "y2").2
        = JoinResponse.matched "gE" Player.O "y2" := by
  decide

/-- C5 counterexample: with P1 then P2 queued in that order, a failing
initialization restores the queue as `[P2, P1]` — the second-dequeued
player in front — not in the original relative order `[P1, P2]` as
claimed. -/
theorem tryMatch_restore_order_swapped :
    (tryMatch
        { queue := [⟨"p1", 0, none⟩, ⟨"p2", 1, none⟩], matchedPlayers := [] }
        "p2" "g" "t1" "t2" false 2).1.queue
      = [⟨"p2", 1, none⟩, ⟨"p1", 0, none⟩] ∧
    ([(⟨"p2", 1, none⟩ : QueueEntry), ⟨"p1", 0, none⟩]
      ≠ [(⟨"p1", 0, none⟩ : QueueEntry), ⟨"p2", 1, none⟩]) := by
  decide

/-- Matchmaking state after the failing pairing attempt: the two dequeued
entries are back at the front, `player2` ahead of `player1` (abbreviation
for the statement of the rollback theorem). -/
def restoredState (st : MMState) (p1 p2 : QueueEntry)
    (rest : List QueueEntry) : MMState :=
  { queue := p2 :: p1 :: rest, matchedPlayers := st.matchedPlayers }

/-- C5 as amended: if initialization fails after dequeuing `player1` and
`player2`, both entries are restored to the front of the queue but in
swapped relative order (`player2` ahead of `player1`), the MatchRecord map
is untouched, and the error is propagated; no player is lost or
duplicated, and the next successful pairing attempt matches the same two
players again — with `player2` now assigned X and `player1` assigned O. -/
theorem tryMatch_rollback (st : MMState) (p1 p2 : QueueEntry)
    (rest : List QueueEntry) (h : st.queue = p1 :: p2 :: rest)
    (hne : p1.playerId ≠ p2.playerId)
    (req g t1 t2 req2 g2 u1 u2 : String) (now now2 : Nat) :
    tryMatch st req g t1 t2 false now =
      (restoredState st p1 p2 rest, Except.error ()) ∧
    ((tryMatch (restoredState st p1 p2 rest) req2 g2 u1 u2 true now2).1.queue
        = rest ∧
     mapGet (tryMatch (restoredState st p1 p2 rest) req2 g2 u1 u2 true
          now2).1.matchedPlayers p2.playerId
        = some { gameId := g2, symbol := Player.X, token := u1,
                 matchedAt := now2 } ∧
     mapGet (tryMatch (restoredState st p1 p2 rest) req2 g2 u1 u2 true
          now2).1.matchedPlayers p1.playerId
        = some { gameId := g2, symbol := Player.O, token := u2,
                 matchedAt := now2 }) := by
  refine ⟨?_, ?_, ?_, ?_⟩
  · unfold tryMatch restoredState
    rw [h]
    simp
  · unfold tryMatch restoredState
    simp
  · unfold tryMatch restoredState
    dsimp only
    rw [if_pos rfl]
    dsimp only
    rw [mapGet_mapSet_ne _ _ _ _
      (fun hc : p2.playerId = p1.playerId => hne hc.symm)]
    exact mapGet_mapSet_self _ _ _
  · unfold tryMatch restoredState
    dsimp only
    rw [if_pos rfl]
    dsimp only
    exact mapGet_mapSet_self _ _ _

/-- Witness for C5 (amended) at a concrete input: a failing pairing of
"a" and "b" restores the queue as `[b, a]` and propagates the error. -/
theorem tryMatch_rollback_witness :
    tryMatch { queue := [⟨"a", 0, none⟩, ⟨"b", 1, none⟩],
               matchedPlayers := [] } "b" "g" "t1" "t2" false 5 =
      ({ queue := [⟨"b", 1, none⟩, ⟨"a", 0, none⟩], matchedPlayers := [] },
       Except.error ()) :=
  (tryMatch_rollback
    { queue := [⟨"a", 0, none⟩, ⟨"b", 1, none⟩], matchedPlayers := [] }
    ⟨"a", 0, none⟩ ⟨"b", 1, none⟩ [] rfl (by decide)
    "b" "g" "t1" "t2" "b" "g2" "u1" "u2" 5 6).1

/-- An admitted player's entry in `allowedPlayers` of `GameSession.ts`. -/
structure PlayerAuth where
  symbol : Player
  token : String
deriving DecidableEq

/-- `PlayerConnection` from `types/messages.ts` (the WebSocket handle is
not represented; sends are modelled as outbound `(recipient, message)`
pairs). -/
structure PlayerConnection where
  playerId : String
  symbol : Player
  connected : Bool
  lastPing : Nat
deriving DecidableEq

/-- `StoredMove` from `types/messages.ts`.  The `notation` field is named
`notationStr` here. -/
structure StoredMove where
  notationStr : List Char
  player : Player
  moveNumber : Nat
  timestamp : Nat
  boardIndex : Int
  cellIndex : Int
deriving DecidableEq

/-- Durable storage of one `GameSession` actor: the persisted move log
(`'moves'`), admission list (`'allowedPlayers'`) and game id
(`'gameId'`). -/
structure SessionStorage where
  storedMoves : List StoredMove
  storedAllowedPlayers : Option (List (String × PlayerAuth))
  storedGameId : Option String
deriving DecidableEq

/-- In-memory fields of a `GameSession` actor. -/
structure SessionMem where
  gameState : Option GameState
  players : List (String × PlayerConnection)
  gameId : String
  moves : List StoredMove
  playerSequenceNumbers : List (String × Int)
  allowedPlayers : List (String × PlayerAuth)
deriving DecidableEq

/-- In-memory state right after an actor restart: every field reset to its
initializer. -/
def freshSession : SessionMem :=
  { gameState := none, players := [], gameId := "", moves := [],
    playerSequenceNumbers := [], allowedPlayers := [] }

/-- `initializeGameSession` from `GameSession.ts`: loads the persisted move
log, and creates a fresh game state only when the log is empty ("If no
moves exist, this is a new game").  With a non-empty log `this.gameState`
is left as it was — `null` after a restart. -/
def initializeGameSession (storage : SessionStorage) (mem : SessionMem)
    (gameId : String) (now : Nat) : SessionMem :=
  let moves := storage.storedMoves
  { mem with
    gameId := gameId
    moves := moves
    gameState :=
      if moves.length = 0 then some (createNewGame gameId now)
      else mem.gameState }

/-- `GAME_STATE` payload (`GameStatePayload` in `types/messages.ts`). -/
structure GameStatePayload where
  gameId : String
  yourSymbol : Player
  board : GameBoard
  currentPlayer : Player
  status : GameStatus
  opponentConnected : Bool
  moves : List StoredMove
deriving DecidableEq

/-- `MOVE_RESULT` payload (`MoveResultPayload` in `types/messages.ts`). -/
structure MoveResultPayload where
  valid : Bool
  board : GameBoard
  currentPlayer : Player
  gameStatus : GameStatus
  error : Option String := none
  move : Option StoredMove := none
deriving DecidableEq

/-- `GAME_OVER` payload (`GameOverPayload` in `types/messages.ts`). -/
structure GameOverPayload where
  winner : Option GameWinner
  reason : String
  finalBoard : GameBoard
deriving DecidableEq

/-- Outbound server messages. -/
inductive ServerMsg
  | gameStateMsg (payload : GameStatePayload)
  | moveResultMsg (payload : MoveResultPayload)
  | gameOverMsg (payload : GameOverPayload)
  | errorMsg (message : String)
deriving DecidableEq

/-- `getOpponentConnected` from `GameSession.ts`: connection flag of the
first player whose id differs. -/
def getOpponentConnected (mem : SessionMem) (playerId : String) : Bool :=
  match mem.players.find? (fun p => p.1 != playerId) with
  | some p => p.2.connected
  | none => false

/-- `sendToPlayer` from `GameSession.ts`: delivered only to a known,
currently-connected player. -/
def sendToPlayer (mem : SessionMem) (playerId : String) (msg : ServerMsg) :
    List (String × ServerMsg) :=
  match mapGet mem.players playerId with
  | some player => if player.connected then [(playerId, msg)] else []
  | none => []

/-- `sendError` from `GameSession.ts`. -/
def sendError (mem : SessionMem) (playerId : String) (message : String) :
    List (String × ServerMsg) :=
  sendToPlayer mem playerId (ServerMsg.errorMsg message)

/-- `sendGameStateToPlayer` from `GameSession.ts`: silently does nothing
when the player is unknown or `this.gameState` is `null`. -/
def sendGameStateToPlayer (mem : SessionMem) (playerId : String) :
    List (String × ServerMsg) :=
  match mapGet mem.players playerId, mem.gameState with
  | some player, some gs =>
    sendToPlayer mem playerId (ServerMsg.gameStateMsg
      { gameId := gs.gameId, yourSymbol := player.symbol, board := gs.board,
        currentPlayer := gs.currentPlayer, status := gs.status,
        opponentConnected := getOpponentConnected mem playerId,
        moves := mem.moves })
  | _, _ => []

/-- `broadcast` from `GameSession.ts`. -/
def broadcast (mem : SessionMem) (msg : ServerMsg) :
    List (String × ServerMsg) :=
  mem.players.foldr (fun p acc => sendToPlayer mem p.1 msg ++ acc) []

/-- `broadcastGameState` from `GameSession.ts`. -/
def broadcastGameState (mem : SessionMem) : List (String × ServerMsg) :=
  mem.players.foldr (fun p acc => sendGameStateToPlayer mem p.1 ++ acc) []

/-- Result of a WebSocket upgrade request. -/
inductive ConnectResult
  | refused
  | accepted
  | jsError
deriving DecidableEq

/-- WebSocket-upgrade branch of `GameSession.fetch`, after the query
parameters have passed presence/format validation: lazy re-initialization
from storage, admission control against the (possibly reloaded) allowed
list, connection creation or reconnection, initial `GAME_STATE` send, and
the two-player game start.  `jsError` marks the `this.gameState!.status =
'playing'` statement throwing on a `null` game state (the timer
cancellation has no effect on the modelled fields). -/
def wsConnect (storage : SessionStorage) (mem : SessionMem)
    (playerId gameId token : String) (now : Nat) :
    SessionMem × List (String × ServerMsg) × ConnectResult :=
  let mem1 :=
    if mem.gameState = none then initializeGameSession storage mem gameId now
    else mem
  let mem2 :=
    if mem1.allowedPlayers.length = 0 then
      match storage.storedAllowedPlayers with
      | some stored => { mem1 with allowedPlayers := stored }
      | none => mem1
    else mem1
  match mapGet mem2.allowedPlayers playerId with
  | none => (mem2, [], ConnectResult.refused)
  | some allowed =>
    if allowed.token ≠ token then (mem2, [], ConnectResult.refused)
    else
      let mem3 :=
        match mapGet mem2.players playerId with
        | some existingPlayer =>
          let updated : PlayerConnection :=
            { existingPlayer with connected := true, lastPing := now }
          { mem2 with players := mapSet mem2.players playerId updated }
        | none =>
          let added : PlayerConnection :=
            { playerId := playerId, symbol := allowed.symbol,
              connected := true, lastPing := now }
          { mem2 with players := mapSet mem2.players playerId added }
      let out1 := sendGameStateToPlayer mem3 playerId
      if mem3.players.length ≥ 2 then
        match mem3.gameState with
        | some gs =>
          let mem4 := { mem3 with
            gameState := some { gs with status := GameStatus.playing } }
          (mem4, out1 ++ broadcastGameState mem4, ConnectResult.accepted)
        | none => (mem3, out1, ConnectResult.jsError)
      else (mem3, out1, ConnectResult.accepted)

/-- A persisted move (X at board 4, cell 4) for the restart scenario. -/
def restartMove : StoredMove :=
  { notationStr := ['M', 'm'], player := Player.X, moveNumber := 1,
    timestamp := 0, boardIndex := 4, cellIndex := 4 }

/-- Durable storage of a session that died after one accepted move: the
move log, the admission list and the game id were persisted. -/
def restartStorage : SessionStorage :=
  { storedMoves := [restartMove],
    storedAllowedPlayers :=
      some [("p1", PlayerAuth.mk Player.X "tok1"),
            ("p2", PlayerAuth.mk Player.O "tok2")],
    storedGameId := some "g" }

/-- C6: evaluation of the reconnect path after an actor restart with a
non-empty persisted move log.  The reconnecting player presents valid
`(gameId, playerId, token)` credentials and is admitted, and the persisted
move log is loaded — yet no `GAME_STATE` message is sent at all and the
in-memory game state remains `null`: `initializeGameSession` never
reconstructs the game state from the move log (it only creates a fresh
state when the log is empty), so nothing exists to send.  The spec's
required behaviour — reconstruct the authoritative state from the log and
send the current board — does not happen. -/
theorem restart_reconnect_sends_no_state :
    (wsConnect restartStorage freshSession "p1" "g" "tok1" 1000).2.1 = [] ∧
    (wsConnect restartStorage freshSession "p1" "g" "tok1" 1000).2.2
      = ConnectResult.accepted ∧
    (wsConnect restartStorage freshSession "p1" "g" "tok1" 1000).1.gameState
      = none ∧
    (wsConnect restartStorage freshSession "p1" "g" "tok1" 1000).1.moves
      = [restartMove] := by
  decide

/-- `MAKE_MOVE` payload (`MakeMovePayload` in `types/messages.ts`); the
optional client-supplied sequence number is an `Option`. -/
structure MakeMovePayload where
  boardIndex : Int
  cellIndex : Int
  sequenceNumber : Option Int
deriving DecidableEq

/-- Content-based duplicate detection of `handleMakeMove`: an identical
`(boardIndex, cellIndex, symbol)` triple among the last 10 entries of the
move log (`this.moves.slice(-10)`) whose timestamp is within 5 seconds of
`Date.now()`. -/
def recentDuplicate (now : Nat) (moves : List StoredMove)
    (payload : MakeMovePayload) (symbol : Player) : Bool :=
  (moves.drop (moves.length - 10)).any fun storedMove =>
    decide (storedMove.boardIndex = payload.boardIndex) &&
    decide (storedMove.cellIndex = payload.cellIndex) &&
    decide (storedMove.player = symbol) &&
    decide ((now : Int) - (storedMove.timestamp : Int) < 5000)

/-- `handleMakeMove` from `GameSession.ts` (the rate-limit check happens
earlier, in `handleWebSocketMessage`, and touches none of the fields
modelled here; `Number.isInteger` always holds for the embedded `Int`
indices).  The check order is: player/game presence, stale sequence
number, recent content duplicate, bounds, turn, game status, then
`applyMove`; an accepted move is appended to the persisted log and
broadcast, and a finished game additionally broadcasts `GAME_OVER`. -/
def handleMakeMove (now : Nat) (mem : SessionMem) (playerId : String)
    (payload : MakeMovePayload) : SessionMem × List (String × ServerMsg) :=
  match mapGet mem.players playerId, mem.gameState with
  | none, _ => (mem, sendError mem playerId "Invalid request")
  | some _, none => (mem, sendError mem playerId "Invalid request")
  | some player, some gs =>
    let seqStale :=
      match payload.sequenceNumber with
      | some seqNum =>
        decide (seqNum ≤ (mapGet mem.playerSequenceNumbers playerId).getD 0)
      | none => false
    if seqStale then
      (mem, sendError mem playerId "Duplicate or out-of-order move")
    else if recentDuplicate now mem.moves payload player.symbol then
      (mem, sendError mem playerId "Duplicate move detected")
    else if payload.boardIndex < 0 ∨ payload.boardIndex > 8 ∨
            payload.cellIndex < 0 ∨ payload.cellIndex > 8 then
      (mem, sendError mem playerId "Invalid move position")
    else if gs.currentPlayer ≠ player.symbol then
      (mem, sendError mem playerId "Invalid request")
    else if gs.status ≠ GameStatus.playing then
      (mem, sendError mem playerId "Game not active")
    else
      let move := createMove payload.boardIndex payload.cellIndex
        player.symbol now
      let result := applyMove now gs move
      match result.newGameState with
      | none =>
        (mem, sendToPlayer mem playerId (ServerMsg.moveResultMsg
          { valid := false, board := gs.board,
            currentPlayer := gs.currentPlayer, gameStatus := gs.status,
            error := some "Invalid move" }))
      | some ns =>
        let storedMove : StoredMove :=
          { notationStr := moveToChessCode move, player := move.player,
            moveNumber := mem.moves.length + 1, timestamp := move.timestamp,
            boardIndex := move.boardIndex, cellIndex := move.cellIndex }
        let mem1 := { mem with
          gameState := some ns
          moves := mem.moves ++ [storedMove]
          playerSequenceNumbers :=
            match payload.sequenceNumber with
            | some seqNum => mapSet mem.playerSequenceNumbers playerId seqNum
            | none => mem.playerSequenceNumbers }
        let out1 := broadcast mem1 (ServerMsg.moveResultMsg
          { valid := true, board := ns.board,
            currentPlayer := ns.currentPlayer, gameStatus := ns.status,
            move := some storedMove })
        if ns.status = GameStatus.finished then
          (mem1, out1 ++ broadcast mem1 (ServerMsg.gameOverMsg
            { winner := ns.winner,
              reason := if ns.winner = some GameWinner.draw then "draw"
                else "win",
              finalBoard := ns.board }))
        else (mem1, out1)

/-- C7: `MAKE_MOVE` handling rejects, leaving the whole session state (game
state, move log, sequence map) unchanged: (i) any move carrying a sequence
number no greater than the last one accepted from that player (0 when none
was accepted), answered "Duplicate or out-of-order move"; and (ii) any move
whose `(boardIndex, cellIndex, symbol)` triple matches one of the last 10
logged moves within 5 seconds — rejected whatever its sequence number, with
one of the two duplicate errors. -/
theorem handleMakeMove_rejects_duplicates (now : Nat) (mem : SessionMem)
    (playerId : String) (payload : MakeMovePayload)
    (pc : PlayerConnection) (gs : GameState)
    (hp : mapGet mem.players playerId = some pc)
    (hconn : pc.connected = true) (hg : mem.gameState = some gs) :
    (∀ seqNum : Int, payload.sequenceNumber = some seqNum →
      seqNum ≤ (mapGet mem.playerSequenceNumbers playerId).getD 0 →
      handleMakeMove now mem playerId payload =
        (mem, [(playerId,
          ServerMsg.errorMsg "Duplicate or out-of-order move")])) ∧
    (recentDuplicate now mem.moves payload pc.symbol = true →
      (handleMakeMove now mem playerId payload).1 = mem ∧
      ((handleMakeMove now mem playerId payload).2 =
          [(playerId, ServerMsg.errorMsg "Duplicate move detected")] ∨
       (handleMakeMove now mem playerId payload).2 =
          [(playerId,
            ServerMsg.errorMsg "Duplicate or out-of-order move")])) := by
  have hsend : ∀ msg : String,
      sendError mem playerId msg = [(playerId, ServerMsg.errorMsg msg)] := by
    intro msg
    unfold sendError sendToPlayer
    rw [hp]
    dsimp only
    rw [if_pos hconn]
  constructor
  · intro seqNum hseq hle
    unfold handleMakeMove
    rw [hp, hg]
    dsimp only
    rw [hseq]
    dsimp only
    rw [if_pos (decide_eq_true hle), hsend]
  · intro hdup
    unfold handleMakeMove
    rw [hp, hg]
    dsimp only
    cases hseq : payload.sequenceNumber with
    | none =>
      dsimp only
      rw [if_neg (by simp), if_pos hdup, hsend]
      exact ⟨rfl, Or.inl rfl⟩
    | some seqNum =>
      dsimp only
      by_cases hle : seqNum ≤ (mapGet mem.playerSequenceNumbers playerId).getD 0
      · rw [if_pos (decide_eq_true hle), hsend]
        exact ⟨rfl, Or.inr rfl⟩
      · rw [if_neg (by simpa using hle), if_pos hdup, hsend]
        exact ⟨rfl, Or.inl rfl⟩

/-- Witness for C7 at a concrete input: the last accepted sequence number
of p1 is 5 and the move resubmits sequence number 5 — rejected with the
session unchanged. -/
theorem handleMakeMove_rejects_duplicates_witness :
    handleMakeMove 1000
      { gameState := some (createNewGame "g" 0),
        players := [("p1", PlayerConnection.mk "p1" Player.X true 0)],
        gameId := "g", moves := [],
        playerSequenceNumbers := [("p1", 5)], allowedPlayers := [] }
      "p1" { boardIndex := 4, cellIndex := 4, sequenceNumber := some 5 } =
      ({ gameState := some (createNewGame "g" 0),
         players := [("p1", PlayerConnection.mk "p1" Player.X true 0)],
         gameId := "g", moves := [],
         playerSequenceNumbers := [("p1", 5)], allowedPlayers := [] },
       [("p1", ServerMsg.errorMsg "Duplicate or out-of-order move")]) :=
  (handleMakeMove_rejects_duplicates 1000
    { gameState := some (createNewGame "g" 0),
      players := [("p1", PlayerConnection.mk "p1" Player.X true 0)],
      gameId := "g", moves := [],
      playerSequenceNumbers := [("p1", 5)], allowedPlayers := [] }
    "p1" { boardIndex := 4, cellIndex := 4, sequenceNumber := some 5 }
    (PlayerConnection.mk "p1" Player.X true 0) (createNewGame "g" 0)
    (by decide) rfl rfl).1 5 rfl (by decide)

end SuperTTT
